import Mathlib

/-!
# Shallow embedding of `cnproc-rs` (`src/lib.rs`)

The crate is a netlink process-connector monitor: `PidMonitor::listen`
builds and sends the multicast-subscription request, `PidMonitor::read`
receives one datagram, walks the netlink sub-message framing, and
`parse_msg` decodes each sub-message into a `PidEvent`.

Machine integers are modelled as `Nat` with explicit 64-bit wraparound
where the source performs `usize` arithmetic that can overflow
(`nlmsg_align`, the `recv(..) as usize` cast).  A received buffer is
modelled as a total byte function `Nat → Nat` (every byte read in the
source is an in-allocation pointer read that cannot fail, including
reads past the declared sub-message region); each read takes the byte
modulo 256, matching the width of a memory load.  Multi-byte fields use
the target's native little-endian layout.

The generated `binding` module (the kernel wire-format contract: struct
sizes, field offsets and named constants) is not part of the sources;
those values are modelled from the spec and are marked as such below.
Rust panics (`todo!()`) are modelled with `Except Panic`; the
potentially non-terminating framing loop is modelled with explicit fuel,
`none` meaning the loop has not finished within the given fuel.
-/

/-- Modelled from the spec (wire-format contract, `binding` module is
absent from the sources): connector class index of the process-event
group (`CN_IDX_PROC`). -/
def CN_IDX_PROC : Nat := 1

/-- Modelled from the spec (wire-format contract): connector value of
the process-event group (`CN_VAL_PROC`). -/
def CN_VAL_PROC : Nat := 1

/-- Modelled from the spec (wire-format contract): netlink "no-op"
message type tag (`NLMSG_NOOP`). -/
def NLMSG_NOOP : Nat := 1

/-- Modelled from the spec (wire-format contract): netlink "error"
message type tag (`NLMSG_ERROR`). -/
def NLMSG_ERROR : Nat := 2

/-- Modelled from the spec (wire-format contract): netlink "done"
message type tag (`NLMSG_DONE`). -/
def NLMSG_DONE : Nat := 3

/-- Modelled from the spec (wire-format contract): the single-byte
"begin multicast listen" operation code (`PROC_CN_MCAST_LISTEN`). -/
def PROC_CN_MCAST_LISTEN : Nat := 1

/-- Modelled from the spec (wire-format contract): process-event
discriminant for fork (`PROC_EVENT_FORK`). -/
def PROC_EVENT_FORK : Nat := 1

/-- Modelled from the spec (wire-format contract): process-event
discriminant for exec (`PROC_EVENT_EXEC`). -/
def PROC_EVENT_EXEC : Nat := 2

/-- Modelled from the spec (wire-format contract): process-event
discriminant for exit (`PROC_EVENT_EXIT`). -/
def PROC_EVENT_EXIT : Nat := 0x80000000

/-- Modelled from the spec (wire-format contract): process-event
discriminant for coredump (`PROC_EVENT_COREDUMP`). -/
def PROC_EVENT_COREDUMP : Nat := 0x40000000

/-- Modelled from the spec §6 (wire-format contract): byte size of the
outer netlink header `nlmsghdr` — total length (4) + type tag (2) +
flags (2) + sequence number (4) + source identifier (4) = 16. -/
def size_of_nlmsghdr : Nat := 16

/-- Modelled from the spec §6 (wire-format contract): byte size of the
fixed part of the connector envelope `cn_msg` — group-identity pair
(4 + 4) + sequence/ack (4 + 4) + payload length (2) + flags (2) = 20.
The payload bytes (`data`) start right after, at offset 20. -/
def size_of_cn_msg : Nat := 20

/-- Modelled from the spec §6 (wire-format contract): the
listen-subscription payload `proc_cn_mcast_op` is a single byte. -/
def size_of_proc_cn_mcast_op : Nat := 1

/-- `nlmsg_align` from `src/lib.rs`: `(len + 3) & !3` on `usize`.
`!3` on a 64-bit `usize` is `0xFFFFFFFFFFFFFFFC`; the mask also
truncates the (wrapping) 64-bit sum `len + 3`. -/
def nlmsg_align (len : Nat) : Nat := (len + 3) &&& 0xFFFFFFFFFFFFFFFC

/-- `nlmsg_hdrlen` from `src/lib.rs`:
`nlmsg_align(size_of::<nlmsghdr>())`. -/
def nlmsg_hdrlen : Nat := nlmsg_align size_of_nlmsghdr

/-- `nlmsg_length` from `src/lib.rs`: `len + nlmsg_hdrlen()`. -/
def nlmsg_length (len : Nat) : Nat := len + nlmsg_hdrlen

/-- `PidEvent` from `src/lib.rs`: the application-level event type.
The carried value is a C `int` process identifier. -/
inductive PidEvent
  | New (pid : Int)
  | Exit (pid : Int)
deriving DecidableEq, Repr

/-- A Rust panic reached during decoding: `parse_msg`'s four
discriminant branches are `todo!()` in the source. -/
inductive Panic
  | todoUnimplemented
deriving DecidableEq, Repr

instance {ε α : Type} [DecidableEq ε] [DecidableEq α] : DecidableEq (Except ε α) :=
  fun a b =>
  match a, b with
  | Except.error x, Except.error y =>
    if h : x = y then Decidable.isTrue (by rw [h])
    else Decidable.isFalse (by intro hc; cases hc; exact h rfl)
  | Except.error _, Except.ok _ => Decidable.isFalse (by intro hc; cases hc)
  | Except.ok _, Except.error _ => Decidable.isFalse (by intro hc; cases hc)
  | Except.ok x, Except.ok y =>
    if h : x = y then Decidable.isTrue (by rw [h])
    else Decidable.isFalse (by intro hc; cases hc; exact h rfl)

/-- One byte loaded from the receive buffer (an in-allocation pointer
read; the buffer function is reduced mod 256 to the width of the load). -/
def readU8 (buf : Nat → Nat) (off : Nat) : Nat := buf off % 256

/-- A native-endian (little-endian) 16-bit load from the buffer. -/
def readU16 (buf : Nat → Nat) (off : Nat) : Nat :=
  readU8 buf off + 256 * readU8 buf (off + 1)

/-- A native-endian (little-endian) 32-bit load from the buffer. -/
def readU32 (buf : Nat → Nat) (off : Nat) : Nat :=
  readU16 buf off + 65536 * readU16 buf (off + 2)

/-- `parse_msg` from `src/lib.rs`, acting on the receive buffer at the
byte offset of a sub-message header.  The source computes
`msg = header + nlmsg_length(0)`, compares the connector envelope's
group identity pair against `(CN_IDX_PROC, CN_VAL_PROC)`, then matches
the process-event discriminant at `(*msg).data`; the four known
discriminant branches are `todo!()`, i.e. they panic.  No length or
bounds check of any kind appears in the source. -/
def parse_msg (buf : Nat → Nat) (hdrOff : Nat) : Except Panic (Option PidEvent) :=
  let msgOff := hdrOff + nlmsg_length 0
  if readU32 buf msgOff ≠ CN_IDX_PROC ∨ readU32 buf (msgOff + 4) ≠ CN_VAL_PROC then
    Except.ok none
  else
    let evOff := msgOff + size_of_cn_msg
    let what := readU32 buf evOff
    if what = PROC_EVENT_FORK then Except.error Panic.todoUnimplemented
    else if what = PROC_EVENT_EXEC then Except.error Panic.todoUnimplemented
    else if what = PROC_EVENT_EXIT then Except.error Panic.todoUnimplemented
    else if what = PROC_EVENT_COREDUMP then Except.error Panic.todoUnimplemented
    else Except.ok none

/-- The framing `loop` inside `PidMonitor::read`, with explicit fuel
(`none` = the loop has not exited within `fuel` iterations; the source
loop has no other exit, so a state on which every fuel returns `none`
is a diverging loop).  Per iteration, mirroring the source: break when
`len < nlmsg_hdrlen()`; break when `len < msg_len`; on
`NLMSG_ERROR | NLMSG_NOOP` the source executes `continue`, which
re-enters the loop with `header` and `len` unchanged; on `NLMSG_DONE`
break; otherwise `parse_msg` (whose panic aborts the call) and push its
event, then advance `header` by `nlmsg_align(msg_len)` bytes and
`checked_sub` the same from `len`, breaking on underflow.  The
events pushed after the current one are appended behind it. -/
def readLoopF (buf : Nat → Nat) : Nat → Nat → Nat → Option (Except Panic (List PidEvent))
  | 0, _, _ => none
  | fuel + 1, off, len =>
    if len < nlmsg_hdrlen then some (Except.ok [])
    else if len < readU32 buf off then some (Except.ok [])
    else if readU16 buf (off + 4) = NLMSG_ERROR ∨ readU16 buf (off + 4) = NLMSG_NOOP then
      readLoopF buf fuel off len
    else if readU16 buf (off + 4) = NLMSG_DONE then some (Except.ok [])
    else
      match parse_msg buf off with
      | Except.error p => some (Except.error p)
      | Except.ok o =>
        if nlmsg_align (readU32 buf off) ≤ len then
          match readLoopF buf fuel (off + nlmsg_align (readU32 buf off))
              (len - nlmsg_align (readU32 buf off)) with
          | none => none
          | some (Except.error p) => some (Except.error p)
          | some (Except.ok evs) => some (Except.ok (o.toList ++ evs))
        else some (Except.ok o.toList)

/-- `PidMonitor` from `src/lib.rs`: the endpoint handle and the bind
identifier.  Both methods take `&self`; they are embedded as state
passing, each returning the (unmodified, per the source) monitor. -/
structure PidMonitor where
  fd : Int
  id : Nat
deriving DecidableEq, Repr

/-- Environment of one `PidMonitor::listen` call: the return value of
the `writev` syscall. -/
structure ListenWorld where
  writev_ret : Int
deriving DecidableEq, Repr

/-- The `nlmsghdr` the source builds in `listen` (zeroed, then
`nlmsg_len`, `nlmsg_pid` and `nlmsg_type` assigned). -/
structure nlmsghdrS where
  nlmsg_len : Nat
  nlmsg_type : Nat
  nlmsg_flags : Nat
  nlmsg_seq : Nat
  nlmsg_pid : Nat
deriving DecidableEq, Repr

/-- The `cn_msg` envelope the source builds in `listen` (zeroed, then
`id.idx`, `id.val` and `len` assigned). -/
structure cn_msgS where
  idx : Nat
  val : Nat
  seq : Nat
  ack : Nat
  len : Nat
  flags : Nat
deriving DecidableEq, Repr

/-- The outer header built by `PidMonitor::listen`:
`nlmsg_len = nlmsg_length(size_of::<cn_msg>() + size_of::<proc_cn_mcast_op>())`,
`nlmsg_pid = self.id`, `nlmsg_type = NLMSG_DONE`, the rest zeroed. -/
def listen_msghdr (id : Nat) : nlmsghdrS :=
  { nlmsg_len := nlmsg_length (size_of_cn_msg + size_of_proc_cn_mcast_op)
    nlmsg_type := NLMSG_DONE
    nlmsg_flags := 0
    nlmsg_seq := 0
    nlmsg_pid := id }

/-- The connector envelope built by `PidMonitor::listen`:
`id.idx = CN_IDX_PROC`, `id.val = CN_VAL_PROC`,
`len = size_of::<proc_cn_mcast_op>()`, the rest zeroed. -/
def listen_cnmsg : cn_msgS :=
  { idx := CN_IDX_PROC
    val := CN_VAL_PROC
    seq := 0
    ack := 0
    len := size_of_proc_cn_mcast_op
    flags := 0 }

/-- The `iov_len` fields of the three `iovec`s `listen` pushes, in push
order: `size_of_val` of the header, of the envelope, and of the
operation code.  `writev(self.fd, iov_vec.as_ptr(), 3)` sends exactly
this list as one gather-write. -/
def listen_iov_lens : List Nat :=
  [size_of_nlmsghdr, size_of_cn_msg, size_of_proc_cn_mcast_op]

/-- `PidMonitor::listen` as a state-passing function: builds the three
segments, performs the gather-write, and maps `writev < 0` to an OS
error.  The monitor value is threaded through unchanged — the source
takes `&self` and assigns to no field. -/
def listenS (m : PidMonitor) (w : ListenWorld) : Except Unit Unit × PidMonitor :=
  let hdr := listen_msghdr m.id
  let cnmesg := listen_cnmsg
  let op := PROC_CN_MCAST_LISTEN
  let sent := listen_iov_lens
  if w.writev_ret < 0 then (Except.error (), m) else (Except.ok (), m)

/-- Environment of one `PidMonitor::read` call: the page size reported
by `sysconf(_SC_PAGE_SIZE)`, the raw return value of `recv` (`-1` on
failure), and the byte contents of the allocated receive buffer after
the call. -/
structure ReadWorld where
  page_size : Nat
  recv_ret : Int
  buf : Nat → Nat

/-- `std::cmp::min(sysconf(_SC_PAGE_SIZE), 8192)`: the element count of
the `Vec::<u32>` receive buffer in `PidMonitor::read`. -/
def read_buffer_elems (page_size : Nat) : Nat := min page_size 8192

/-- The byte capacity of the receive buffer: `read_buffer_elems`
32-bit words of four bytes each. -/
def read_buffer_capacity_bytes (page_size : Nat) : Nat :=
  4 * read_buffer_elems page_size

/-- The byte bound passed to `recv`: `buff_size * 4` in the source. -/
def read_recv_bound (page_size : Nat) : Nat := read_buffer_elems page_size * 4

/-- Outcome of one `PidMonitor::read` call. -/
inductive ReadResult
  | osError
  | panicked (p : Panic)
  | events (evs : List PidEvent)
deriving DecidableEq, Repr

/-- `PidMonitor::read` as a state-passing function with fuel for the
framing loop (`none` = the loop is still running after `fuel`
iterations).  Mirrors the source: `len` is `recv`'s return value cast
`as usize` (a 64-bit two's-complement reinterpretation, so `-1` becomes
`2^64 - 1`); the subsequent `if len < 0` test is on the unsigned `len`,
exactly as in the source; then the framing loop runs from offset 0.
The monitor is threaded through unchanged — the source takes `&self`
and assigns to no field. -/
def readS (m : PidMonitor) (w : ReadWorld) (fuel : Nat) :
    Option ReadResult × PidMonitor :=
  let buff_size := read_buffer_elems w.page_size
  let len : Nat := (w.recv_ret % (2 ^ 64 : Int)).toNat
  if len < 0 then (some ReadResult.osError, m)
  else
    match readLoopF w.buf fuel 0 len with
    | none => (none, m)
    | some (Except.error p) => (some (ReadResult.panicked p), m)
    | some (Except.ok evs) => (some (ReadResult.events evs), m)

/-- The framing loop of `read` never exits on this buffer and received
length: no amount of fuel completes it. -/
def loopsForever (buf : Nat → Nat) (len : Nat) : Prop :=
  ∀ fuel, readLoopF buf fuel 0 len = none

/-- Little-endian bytes of a 32-bit value, for crafting concrete
datagrams. -/
def le32 (n : Nat) : List Nat :=
  [n % 256, n / 256 % 256, n / 65536 % 256, n / 16777216 % 256]

/-- Little-endian bytes of a 16-bit value. -/
def le16 (n : Nat) : List Nat := [n % 256, n / 256 % 256]

/-- Byte list of one crafted sub-message: a 16-byte netlink header
(given total length and type tag), a connector envelope (given group
identity pair and payload length), and a process event (given
discriminant and subject pid), laid out per the wire contract. -/
def mkSubMsg (total ty idx val plen what pid : Nat) : List Nat :=
  le32 total ++ le16 ty ++ le16 0 ++ le32 0 ++ le32 0 ++
  le32 idx ++ le32 val ++ le32 0 ++ le32 0 ++ le16 plen ++ le16 0 ++
  le32 what ++ le32 pid

/-- View a byte list as a receive buffer (bytes past the list are the
residue of the uninitialised allocation, taken here to be zero). -/
def bufOf (l : List Nat) : Nat → Nat := fun i => l.getD i 0

/-- The arguments of the gather-write `listen` performs:
`writev(self.fd, iov_vec.as_ptr(), 3)` — the descriptor, the pushed
iovec lengths, and the segment count. -/
def listen_writev_args (m : PidMonitor) : Int × List Nat × Nat :=
  (m.fd, listen_iov_lens, 3)

/-- A 16-byte datagram holding a single well-formed no-op sub-message:
declared length 16, type tag `NLMSG_NOOP`. -/
def noopOnlyMsg : List Nat := le32 16 ++ le16 NLMSG_NOOP ++ le16 0 ++ le32 0 ++ le32 0

/-- A bare 16-byte netlink header declaring total length 100 — a
truncated sub-message when at most 16 bytes remain behind it. -/
def truncatedHdr : List Nat := le32 100 ++ le16 0 ++ le16 0 ++ le32 0 ++ le32 0

/-- A 32-byte datagram: a well-formed no-op sub-message followed by a
truncated sub-message (declared length 100, 16 bytes remaining). -/
def noopThenTruncated : List Nat := noopOnlyMsg ++ truncatedHdr

/-- A 60-byte datagram: a well-formed 44-byte foreign sub-message
(envelope group `(0,0)`, not the process-event group) followed by a
truncated sub-message (declared length 100, 16 bytes remaining). -/
def foreignThenTruncated : List Nat := mkSubMsg 44 0 0 0 0 0 0 ++ truncatedHdr

/-- A sub-message consisting of a bare header declaring total length 16
(its declared region contains no connector envelope at all). -/
def hdrOnlySubMsg : List Nat := le32 16 ++ le16 0 ++ le16 0 ++ le32 0 ++ le32 0

/-- The environment of a `read` call whose `recv` fails: `recv` returns
`-1` and the freshly allocated buffer is (say) zero-filled. -/
def recvFailWorld : ReadWorld :=
  { page_size := 4096, recv_ret := -1, buf := bufOf [] }

/-- An arbitrary concrete monitor. -/
def mon0 : PidMonitor := { fd := 3, id := 0 }

/-- A run of the framing loop that ends at a truncated sub-message:
either the very next sub-message's declared length already exceeds the
remaining bytes, or the next sub-message is well formed, has an
ordinary type tag (none of error / no-op / done), decodes without
panicking, its aligned length fits the remaining bytes, and the rest of
the run (after advancing past it) again ends at a truncated
sub-message.  The list collects the events decoded on the way. -/
inductive TruncStops (buf : Nat → Nat) : Nat → Nat → List PidEvent → Prop
  | trunc {off len : Nat}
      (h1 : nlmsg_hdrlen ≤ len) (h2 : len < readU32 buf off) :
      TruncStops buf off len []
  | step {off len : Nat} {o : Option PidEvent} {evs : List PidEvent}
      (h1 : nlmsg_hdrlen ≤ len) (h2 : readU32 buf off ≤ len)
      (h3 : readU16 buf (off + 4) ≠ NLMSG_ERROR)
      (h4 : readU16 buf (off + 4) ≠ NLMSG_NOOP)
      (h5 : readU16 buf (off + 4) ≠ NLMSG_DONE)
      (h6 : parse_msg buf off = Except.ok o)
      (h7 : nlmsg_align (readU32 buf off) ≤ len)
      (h8 : TruncStops buf (off + nlmsg_align (readU32 buf off))
              (len - nlmsg_align (readU32 buf off)) evs) :
      TruncStops buf off len (o.toList ++ evs)

/-! ## Helper lemmas -/

/-- Masking with `!3` on a 64-bit `usize` clears the two low bits of
the 64-bit truncation of the operand. -/
theorem land_mask_eq (x : Nat) : x &&& 0xFFFFFFFFFFFFFFFC = x % 2 ^ 64 / 4 * 4 := by
  have hm : (0xFFFFFFFFFFFFFFFC : Nat) = (2 ^ 62 - 1) <<< 2 := by decide
  have hr : x % 2 ^ 64 / 4 * 4 = ((x % 2 ^ 64) >>> 2) <<< 2 := by
    rw [Nat.shiftLeft_eq, Nat.shiftRight_eq_div_pow]
  rw [hm, hr]
  apply Nat.eq_of_testBit_eq
  intro i
  simp only [Nat.testBit_land, Nat.testBit_shiftLeft, Nat.testBit_shiftRight,
    Nat.testBit_two_pow_sub_one, Nat.testBit_mod_two_pow]
  rcases Nat.lt_or_ge i 2 with h2 | h2
  · simp [Nat.not_le.mpr h2]
  · have hge : (decide (i ≥ 2)) = true := by simp [h2]
    simp only [hge, Bool.true_and]
    have hadd : 2 + (i - 2) = i := by omega
    rw [hadd]
    by_cases h64 : i < 64
    · have hlt : i - 2 < 62 := by omega
      simp [h64, hlt]
    · have hlt : ¬ (i - 2 < 62) := by omega
      simp [h64, hlt]

/-- Arithmetic characterisation of `nlmsg_align`: the 64-bit wrapping
sum `len + 3` rounded down to a multiple of 4. -/
theorem nlmsg_align_eq (n : Nat) : nlmsg_align n = (n + 3) % 2 ^ 64 / 4 * 4 := by
  rw [nlmsg_align, land_mask_eq]

/-- The framing loop makes no progress on the zero-filled buffer when
`len` is the `usize` reinterpretation of `recv`'s failure return `-1`:
the declared sub-message length read from the zero bytes is 0, the
aligned advance is 0, and the loop revisits the same state forever. -/
theorem readLoopF_zero_buf_diverges (fuel : Nat) :
    readLoopF (bufOf []) fuel 0 18446744073709551615 = none := by
  induction fuel with
  | zero => rfl
  | succ n ih =>
    conv_lhs => rw [readLoopF]
    norm_num [parse_msg, readU32, readU16, readU8, bufOf, nlmsg_hdrlen, nlmsg_align,
      nlmsg_length, size_of_nlmsghdr, size_of_cn_msg, NLMSG_ERROR, NLMSG_NOOP, NLMSG_DONE,
      CN_IDX_PROC, CN_VAL_PROC, PROC_EVENT_FORK, PROC_EVENT_EXEC, PROC_EVENT_EXIT,
      PROC_EVENT_COREDUMP,
      show (19 &&& 18446744073709551612 : Nat) = 16 from by decide,
      show (3 &&& 18446744073709551612 : Nat) = 0 from by decide]
    rw [ih]

/-! ## Claims -/

/-- C1: the decoder's four known process-event discriminants (fork,
exec, exit, coredump) do not return `New`/`Exit` events — each branch
is `todo!()` in the source, so decoding such a payload panics; only the
claim's final part holds: an unknown discriminant returns nothing.
Evaluated here on crafted process-event-group datagrams with subject
pid 4242. -/
theorem C1_known_discriminants_panic :
    parse_msg (bufOf (mkSubMsg 44 0 CN_IDX_PROC CN_VAL_PROC 8 PROC_EVENT_FORK 4242)) 0 =
      Except.error Panic.todoUnimplemented ∧
    parse_msg (bufOf (mkSubMsg 44 0 CN_IDX_PROC CN_VAL_PROC 8 PROC_EVENT_EXEC 4242)) 0 =
      Except.error Panic.todoUnimplemented ∧
    parse_msg (bufOf (mkSubMsg 44 0 CN_IDX_PROC CN_VAL_PROC 8 PROC_EVENT_EXIT 4242)) 0 =
      Except.error Panic.todoUnimplemented ∧
    parse_msg (bufOf (mkSubMsg 44 0 CN_IDX_PROC CN_VAL_PROC 8 PROC_EVENT_COREDUMP 4242)) 0 =
      Except.error Panic.todoUnimplemented ∧
    parse_msg (bufOf (mkSubMsg 44 0 CN_IDX_PROC CN_VAL_PROC 8 999 4242)) 0 =
      Except.ok none := by
  decide

/-- C2: the framing loop does not advance past a no-op sub-message:
on a 16-byte datagram holding a single well-formed `NLMSG_NOOP`
sub-message, the `continue` in the source re-enters the loop with the
cursor and remaining length unchanged, and the loop never exits at any
fuel. -/
theorem C2_noop_submessage_loops_forever : loopsForever (bufOf noopOnlyMsg) 16 := by
  intro fuel
  induction fuel with
  | zero => rfl
  | succ n ih => exact ih

/-- C3: when `recv` fails (returns `-1`), `read` does not return an OS
error: the source casts the return `as usize` before the sign test, so
`len` becomes `2^64 - 1`, the `len < 0` test is vacuously false, and
the call proceeds into the framing loop over garbage (here, on a
zero-filled buffer, it never returns at all — at every fuel the loop is
still running, and in particular no `osError` is ever produced). -/
theorem C3_recv_failure_not_surfaced (fuel : Nat) :
    (readS mon0 recvFailWorld fuel).1 = none := by
  have hdiv := readLoopF_zero_buf_diverges fuel
  simp only [readS, recvFailWorld]
  norm_num
  rw [show ((18446744073709551615 : Int)).toNat = 18446744073709551615 from rfl, hdiv]

/-- C4: the subscription request built by `listen` declares total
length `size_of_nlmsghdr + size_of_cn_msg + 1` (the listen payload
being the single-byte multicast operation), the header portion's
aligned size is a multiple of 4, and the gather-write sends exactly the
three segments (header, envelope, operation byte) in one `writev` of
count 3, their byte lengths summing to the declared total. -/
theorem C4_listen_request_shape (m : PidMonitor) :
    (listen_msghdr m.id).nlmsg_len = size_of_nlmsghdr + size_of_cn_msg + 1 ∧
    nlmsg_hdrlen % 4 = 0 ∧ nlmsg_hdrlen = size_of_nlmsghdr ∧
    (listen_writev_args m).2.1 =
      [size_of_nlmsghdr, size_of_cn_msg, size_of_proc_cn_mcast_op] ∧
    (listen_writev_args m).2.2 = 3 ∧
    ((listen_writev_args m).2.1).sum = (listen_msghdr m.id).nlmsg_len := by
  refine ⟨?_, by decide, by decide, rfl, rfl, ?_⟩
  · show nlmsg_length (size_of_cn_msg + size_of_proc_cn_mcast_op) =
      size_of_nlmsghdr + size_of_cn_msg + 1
    decide
  · show listen_iov_lens.sum = nlmsg_length (size_of_cn_msg + size_of_proc_cn_mcast_op)
    decide

/-- C5: the decoder performs no size verification before interpreting
the connector envelope and the process event: on a sub-message whose
declared length is 16 (a bare header, no room for any envelope),
`parse_msg`'s result depends on the bytes beyond the declared region —
two buffers identical on the entire declared region yield `ok none`
and a panic respectively, so the decoder reads past the region instead
of failing closed. -/
theorem C5_decoder_reads_past_region :
    (∀ i : Fin 16, bufOf hdrOnlySubMsg i.val =
      bufOf (mkSubMsg 16 0 CN_IDX_PROC CN_VAL_PROC 8 PROC_EVENT_FORK 4242) i.val) ∧
    readU32 (bufOf hdrOnlySubMsg) 0 = 16 ∧
    readU32 (bufOf (mkSubMsg 16 0 CN_IDX_PROC CN_VAL_PROC 8 PROC_EVENT_FORK 4242)) 0 = 16 ∧
    parse_msg (bufOf hdrOnlySubMsg) 0 = Except.ok none ∧
    parse_msg (bufOf (mkSubMsg 16 0 CN_IDX_PROC CN_VAL_PROC 8 PROC_EVENT_FORK 4242)) 0 =
      Except.error Panic.todoUnimplemented := by
  decide

/-- C6 (counterexample): a datagram consisting of a well-formed no-op
sub-message followed by a truncated sub-message (declared length 100,
16 bytes remaining) does not make framing yield the preceding
sub-messages and stop cleanly — the loop never exits at any fuel. -/
theorem C6_noop_then_truncated_diverges : loopsForever (bufOf noopThenTruncated) 32 := by
  intro fuel
  induction fuel with
  | zero => rfl
  | succ n ih => exact ih

/-- C6 (amended): on every buffer in which the framing run reaches a
sub-message whose declared length exceeds the remaining bytes, with
every preceding sub-message well formed, of ordinary type tag (none of
error / no-op / done), decoding without panic and of aligned length
fitting the remaining bytes, the framing loop terminates and returns
exactly the events of the preceding sub-messages — no error and
nothing from the truncated tail. -/
theorem C6_truncation_stops_cleanly (buf : Nat → Nat) (off len : Nat)
    (evs : List PidEvent) (h : TruncStops buf off len evs) :
    ∃ fuel, readLoopF buf fuel off len = some (Except.ok evs) := by
  induction h with
  | trunc h1 h2 =>
    exact ⟨1, by rw [readLoopF, if_neg (Nat.not_lt.mpr h1), if_pos h2]⟩
  | step h1 h2 h3 h4 h5 h6 h7 _ ih =>
    obtain ⟨f, hf⟩ := ih
    refine ⟨f + 1, ?_⟩
    rw [readLoopF, if_neg (Nat.not_lt.mpr h1), if_neg (Nat.not_lt.mpr h2),
      if_neg (not_or.mpr ⟨h3, h4⟩), if_neg h5, h6]
    dsimp only
    rw [if_pos h7, hf]

/-- C6 (witness): on the concrete 60-byte datagram holding a foreign
44-byte sub-message followed by a truncated one, framing terminates
with no events and no error. -/
theorem C6_truncation_stops_cleanly_witness :
    ∃ fuel, readLoopF (bufOf foreignThenTruncated) fuel 0 60 = some (Except.ok []) :=
  C6_truncation_stops_cleanly (bufOf foreignThenTruncated) 0 60 []
    (TruncStops.step (by decide) (by decide) (by decide) (by decide) (by decide)
      (show parse_msg (bufOf foreignThenTruncated) 0 = Except.ok none from by decide)
      (by decide)
      (TruncStops.trunc (by decide) (by decide)))

/-- C7 (counterexample): with a system page size of 4096, the receive
buffer's byte capacity is 16384 = 4 × min(4096, 8192), not
min(4096, 8192): the source allocates `min(page_size, 8192)` 32-bit
words, and bounds `recv` by `buff_size * 4` bytes. -/
theorem C7_capacity_counterexample :
    read_buffer_capacity_bytes 4096 = 16384 ∧
    read_buffer_capacity_bytes 4096 ≠ min 4096 8192 ∧
    read_recv_bound 4096 ≠ min 4096 8192 := by
  decide

/-- C7 (amended): for every reported page size, the receive buffer's
capacity is `4 * min(page_size, 8192)` bytes (that many bytes in
`min(page_size, 8192)` 32-bit words), and the `recv` call is bounded by
exactly that byte count. -/
theorem C7_buffer_capacity (page_size : Nat) :
    read_buffer_capacity_bytes page_size = 4 * min page_size 8192 ∧
    read_recv_bound page_size = read_buffer_capacity_bytes page_size := by
  constructor
  · rfl
  · simp [read_recv_bound, read_buffer_capacity_bytes, Nat.mul_comm]

/-- C8: a sub-message whose connector envelope group identity pair does
not match `(CN_IDX_PROC, CN_VAL_PROC)` decodes to nothing, for every
buffer content (in particular regardless of any payload bytes behind
the envelope). -/
theorem C8_group_mismatch_ignored (buf : Nat → Nat) (off : Nat)
    (h : readU32 buf (off + nlmsg_length 0) ≠ CN_IDX_PROC ∨
      readU32 buf (off + nlmsg_length 0 + 4) ≠ CN_VAL_PROC) :
    parse_msg buf off = Except.ok none := by
  simp only [parse_msg]
  rw [if_pos h]

/-- C8 (witness): on the zero-filled buffer the envelope group identity
is `(0, 0)`, which mismatches, and decoding returns nothing. -/
theorem C8_group_mismatch_ignored_witness :
    parse_msg (bufOf []) 0 = Except.ok none :=
  C8_group_mismatch_ignored (bufOf []) 0 (by decide)

/-- C9 (counterexample): on a 64-bit `usize`, `nlmsg_align` is not
inflationary at `2^64 - 1`: the wrapping sum `(2^64 - 1) + 3` overflows
and the result is 0 < 2^64 - 1. -/
theorem C9_align_overflow_counterexample :
    nlmsg_align (2 ^ 64 - 1) = 0 ∧ ¬ (2 ^ 64 - 1 ≤ nlmsg_align (2 ^ 64 - 1)) := by
  decide

/-- C9 (amended): for every length `n`, `nlmsg_align` is idempotent
and returns a multiple of 4 — unconditionally, wrap cases included;
whenever `n + 3` does not overflow the 64-bit `usize`
(`n + 3 < 2^64`), it additionally satisfies `n ≤ nlmsg_align n ≤ n + 3`. -/
theorem C9_align_props (n : Nat) :
    nlmsg_align (nlmsg_align n) = nlmsg_align n ∧ nlmsg_align n % 4 = 0 ∧
    (n + 3 < 2 ^ 64 → n ≤ nlmsg_align n ∧ nlmsg_align n ≤ n + 3) := by
  rw [nlmsg_align_eq, nlmsg_align_eq]
  omega

/-- C9 (witness): the amended properties at the concrete length 21
(`nlmsg_align 21 = 24`), the no-overflow premise of the bounds
discharged there. -/
theorem C9_align_props_witness :
    nlmsg_align (nlmsg_align 21) = nlmsg_align 21 ∧ nlmsg_align 21 % 4 = 0 ∧
    21 ≤ nlmsg_align 21 ∧ nlmsg_align 21 ≤ 21 + 3 :=
  ⟨(C9_align_props 21).1, (C9_align_props 21).2.1,
    ((C9_align_props 21).2.2 (by decide)).1, ((C9_align_props 21).2.2 (by decide)).2⟩

/-- C10: `listen` and `read` take the monitor by shared reference and
assign to no field; in the state-passing embedding both return the
monitor with `fd` and `id` unchanged on every call, whether the call
succeeds, errors, panics, or is still looping. -/
theorem C10_monitor_fields_unchanged (m : PidMonitor) (lw : ListenWorld)
    (wr : ReadWorld) (fuel : Nat) :
    (listenS m lw).2.fd = m.fd ∧ (listenS m lw).2.id = m.id ∧
    (readS m wr fuel).2.fd = m.fd ∧ (readS m wr fuel).2.id = m.id := by
  have hl : (listenS m lw).2 = m := by
    simp only [listenS]
    split <;> rfl
  have hr : (readS m wr fuel).2 = m := by
    simp only [readS]
    split
    · rfl
    · split <;> rfl
  exact ⟨by rw [hl], by rw [hl], by rw [hr], by rw [hr]⟩
